import Mathlib

/-!
Verification of the walk-forward backtesting engine of
`mmf_sa/models/abstract_model.py` (class `ForecastingRegressor`).

The engine is embedded shallowly:

* Timestamps are integers.  For any non-monthly frequency the source adds
  `pd.DateOffset(days=n)` to timestamps, which on day-resolution timestamps
  is addition of `n` days; the embedding of the windowing loop therefore
  works with dates as `Int` (days) and models the calendar-day branch of
  the offset arithmetic.  The month-end branch is kept symbolic in the
  `POffset` type, which is all the offset-resolver claims need.
* `pandas` DataFrames become lists of `Row`.  Boolean-mask selection
  (`df[mask]`) becomes `List.filter`; `df.sort_values(by=[date_col])`
  becomes a merge sort on the date; `df[col].max()` becomes `maxDate`
  (returning `none` for an empty frame, in which case the source's loop
  condition compares against NaN and is false, so no window is produced —
  `backtestWith` reproduces exactly that).
* Python exceptions become `Except String`.
* The abstract `predict` capability and the external `sktime` metric
  classes and `cloudpickle.dumps` serializer are parameters of the
  embedding, exactly as they are external collaborators of the core.
* The `while` loop of `backtest` is total in Python only for a positive
  stride; it is embedded as `walkAux` with an explicit iteration bound
  that is provably sufficient whenever the stride is positive
  (`walkCursors_eq` recovers the literal loop equation in that case).
-/

namespace MMF

/-- A pandas offset object as built in `ForecastingRegressor.__init__` and
`backtest`: either `pd.offsets.MonthEnd(n)` or `pd.DateOffset(days=n)`. -/
inductive POffset where
  | monthEnd (n : Int)
  | days (n : Int)
deriving DecidableEq, Repr

/-- `params["freq"].upper()[0]`: the uppercased first character of the
frequency code — uppercasing the string and then indexing its first
character is, character-wise, uppercasing the first character (the codes
are ASCII).  The source raises on an empty string; claims only concern
nonempty codes. -/
def freqCode (freq : String) : Char :=
  Char.toUpper (freq.data.headD 'A')

/-- `self.one_ts_offset` from `__init__`: `MonthEnd(1)` when the resolved
frequency character is `M`, else `DateOffset(days=1)`. -/
def one_ts_offset (freq : String) : POffset :=
  if freqCode freq = 'M' then POffset.monthEnd 1 else POffset.days 1

/-- `self.prediction_length_offset` from `__init__`. -/
def prediction_length_offset (freq : String) (plen : Int) : POffset :=
  if freqCode freq = 'M' then POffset.monthEnd plen else POffset.days plen

/-- `stride_offset` as computed at the top of `backtest`. -/
def stride_offset (freq : String) (stride : Int) : POffset :=
  if freqCode freq = 'M' then POffset.monthEnd stride else POffset.days stride

/-- The three offsets derived from a configuration: the Offset Resolver of
the spec (one-period step, horizon step, stride step). -/
def offsetResolver (freq : String) (plen stride : Int) :
    POffset × POffset × POffset :=
  (one_ts_offset freq, prediction_length_offset freq plen,
    stride_offset freq stride)

/-- One row of the input Series Table: a date, a target value and an
optional group-id column value. -/
structure Row where
  date : Int
  target : Rat
  group : Option String
deriving DecidableEq, Repr

/-- The configuration dictionary `self.params` (the keys the engine
reads). -/
structure Params where
  freq : String
  prediction_length : Int
  date_col : String
  group_id : String
  target : String
  metric : String
  stride : Option Int
deriving DecidableEq, Repr

/-- Lines 65-66 of the source: an explicit `stride` argument wins,
otherwise `self.params.get("stride", 7)`. -/
def effectiveStride (p : Params) (strideArg : Option Int) : Int :=
  match strideArg with
  | some s => s
  | none => p.stride.getD 7

/-- `df.sort_values(by=[date_col])` on the embedded frame: a sort of the
rows by ascending date (`sort_values` guarantees no particular order
among equal dates with its default quicksort, so any sort by date is a
faithful model). -/
def sortByDate (df : List Row) : List Row :=
  List.insertionSort (fun a b => a.date ≤ b.date) df

/-- `df[date_col].max()`; `none` for an empty frame (pandas yields NaN). -/
def maxDate : List Row → Option Int
  | [] => none
  | r :: rs =>
    match maxDate rs with
    | none => some r.date
    | some m => some (max r.date m)

/-- Line 81: `_df = df[df[date_col] < curr_date]` — the history slice. -/
def histSlice (df : List Row) (cursor : Int) : List Row :=
  df.filter (fun r => r.date < cursor)

/-- Lines 82-87: `actuals_df = df[(date >= curr) & (date < curr + horizon)]`
— the actual slice, a half-open window. -/
def actualsSlice (df : List Row) (cursor hzn : Int) : List Row :=
  df.filter (fun r => cursor ≤ r.date && r.date < cursor + hzn)

/-- One tuple of the `results` list (lines 96-106 / 113-122): the seven
cells of a Result Table row. -/
structure ResRow where
  groupId : Option String
  window_start : Int
  metric_name : String
  metric_value : Rat
  forecast : List Rat
  actual : List Rat
  model_pickle : String
deriving DecidableEq, Repr

/-- The dict returned by `calculate_metrics` (lines 174-180). -/
structure MetricRecord where
  curr_date : Int
  metric_name : String
  metric_value : Rat
  forecast : List Rat
  actual : List Rat
  model_pickle : String
deriving DecidableEq, Repr

/-- The dynamic shape of a `calculate_metrics` return value as dispatched
by lines 95-109: a dict, a list of row tuples, or anything else (e.g.
`None` or a tuple) — all values that are neither dict nor list behave
identically there, so they collapse to one constructor. -/
inductive MetricsVal where
  | dict (r : MetricRecord)
  | list (rs : List ResRow)
  | other
deriving DecidableEq, Repr

/-- The rows a single window contributes to `results` (lines 95-109):
a dict yields one seven-cell tuple whose first cell is the `group_id`
argument, a list is extended verbatim, anything else contributes
nothing. -/
def windowContrib (gid : Option String) : MetricsVal → List ResRow
  | MetricsVal.dict r =>
    [⟨gid, r.curr_date, r.metric_name, r.metric_value, r.forecast,
      r.actual, r.model_pickle⟩]
  | MetricsVal.list rs => rs
  | MetricsVal.other => []

/-- The `while` loop's cursor sequence, with an explicit iteration bound:
from cursor `c`, emit `c` while `c + hzn ≤ e + 1` and step by `s`
(line 79 / 111, daily branch: `one_ts_offset` is one day). -/
def walkAux (e hzn s : Int) : Nat → Int → List Int
  | 0, _ => []
  | n + 1, c =>
    if c + hzn ≤ e + 1 then c :: walkAux e hzn s n (c + s) else []

/-- All cursors the backtest loop visits, starting (line 74) at
`start + one_ts_offset`, i.e. `start + 1` in days.  The iteration bound
`(e + 2 - hzn - c).toNat` is sufficient for any positive stride
(`walkCursors_eq` below recovers the literal loop equation). -/
def walkCursors (e hzn s c : Int) : List Int :=
  walkAux e hzn s (e + 2 - hzn - c).toNat c

/-- The fixed column list of the Result Table (lines 113-122); the first
column is named by the configured group-id column name. -/
def resColumns (p : Params) : List String :=
  [p.group_id, "backtest_window_start_date", "metric_name", "metric_value",
    "forecast", "actual", "model_pickle"]

/-- The materialized Result Table: its column names and its rows. -/
structure ResDF where
  columns : List String
  rows : List ResRow
deriving DecidableEq, Repr

/-- The body of the `while` loop over a cursor list: slice history and
actuals, call `calculate_metrics` (an exception aborts the whole run),
append that window's contribution, continue. -/
def runWindows (f : List Row → List Row → Int → Except String MetricsVal)
    (gid : Option String) (df : List Row) (hzn : Int) :
    List Int → Except String (List ResRow)
  | [] => Except.ok []
  | c :: cs =>
    match f (histSlice df c) (actualsSlice df c hzn) c with
    | Except.error e => Except.error e
    | Except.ok m =>
      match runWindows f gid df hzn cs with
      | Except.error e => Except.error e
      | Except.ok rest => Except.ok (windowContrib gid m ++ rest)

/-- `backtest` on an already sorted private copy of the frame
(everything in the source after line 72). -/
def backtestSorted (p : Params)
    (f : List Row → List Row → Int → Except String MetricsVal)
    (dfs : List Row) (start : Int) (gid : Option String)
    (strideArg : Option Int) : Except String ResDF :=
  let stride := effectiveStride p strideArg
  match maxDate dfs with
  | none => Except.ok ⟨resColumns p, []⟩
  | some e =>
    match runWindows f gid dfs p.prediction_length
        (walkCursors e p.prediction_length stride (start + 1)) with
    | Except.error msg => Except.error msg
    | Except.ok rows => Except.ok ⟨resColumns p, rows⟩

/-- `ForecastingRegressor.backtest` (lines 45-124), generic in the
`calculate_metrics` member `f` (concrete models may override it; the
concrete base implementation is `calculateMetrics` below).  Line 72:
the loop works on `df.copy().sort_values(by=[date_col])`. -/
def backtestWith (p : Params)
    (f : List Row → List Row → Int → Except String MetricsVal)
    (df : List Row) (start : Int) (gid : Option String)
    (strideArg : Option Int) : Except String ResDF :=
  backtestSorted p f (sortByDate df) start gid strideArg

/-- The list of cursors the loop visits for a given input: empty when the
frame is empty (pandas' NaN maximum makes the loop condition false),
otherwise the walk from `start + 1` bounded by the sorted copy's maximum
date. -/
def windowCursors (p : Params) (df : List Row) (start : Int)
    (strideArg : Option Int) : List Int :=
  match maxDate (sortByDate df) with
  | none => []
  | some e =>
    walkCursors e p.prediction_length (effectiveStride p strideArg)
      (start + 1)

/-- The external sktime metric classes used by `calculate_metrics`:
`MeanAbsolutePercentageError(symmetric=True/False)`, `MeanAbsoluteError`,
`MeanSquaredError(square_root=False/True)`.  They are collaborators of
the core (the spec's Metric Evaluator selects among them but does not
reimplement them), so they are parameters of the embedding. -/
structure SktimeMetrics where
  smape : List Rat → List Rat → Rat
  mape : List Rat → List Rat → Rat
  mae : List Rat → List Rat → Rat
  mse : List Rat → List Rat → Rat
  rmse : List Rat → List Rat → Rat

/-- A trivial concrete instance of the sktime collaborators, used to
evaluate the engine at concrete inputs. -/
def skZero : SktimeMetrics :=
  ⟨fun _ _ => 0, fun _ _ => 0, fun _ _ => 0, fun _ _ => 0, fun _ _ => 0⟩

/-- `ForecastingRegressor.calculate_metrics` (lines 126-180): first call
`self.predict(hist_df, val_df)` (line 139) — only then select the metric
by the configured kind, raising for an unsupported kind (line 172) — and
return the dict of lines 174-180.  `dumps` stands for
`cloudpickle.dumps`. -/
def calculateMetrics (sk : SktimeMetrics) (dumps : String → String)
    (p : Params)
    (predict : List Row → List Row → Except String (List Row × String))
    (hist val : List Row) (curr : Int) : Except String MetricsVal :=
  match predict hist val with
  | Except.error e => Except.error e
  | Except.ok (pred, fitted) =>
    let actualT := val.map (fun r => r.target)
    let predT := pred.map (fun r => r.target)
    let mk := fun (v : Rat) =>
      Except.ok (MetricsVal.dict
        ⟨curr, p.metric, v, predT, actualT, dumps fitted⟩)
    if p.metric = "smape" then mk (sk.smape actualT predT)
    else if p.metric = "mape" then mk (sk.mape actualT predT)
    else if p.metric = "mae" then mk (sk.mae actualT predT)
    else if p.metric = "mse" then mk (sk.mse actualT predT)
    else if p.metric = "rmse" then mk (sk.rmse actualT predT)
    else Except.error ("Metric " ++ p.metric ++ " not supported!")

/-- The metric kinds `calculate_metrics` accepts. -/
def supportedMetrics : List String :=
  ["smape", "mape", "mae", "mse", "rmse"]

/-- `backtest` with the concrete base-class `calculate_metrics`. -/
def backtest (sk : SktimeMetrics) (dumps : String → String) (p : Params)
    (predict : List Row → List Row → Except String (List Row × String))
    (df : List Row) (start : Int) (gid : Option String)
    (strideArg : Option Int) : Except String ResDF :=
  backtestWith p (calculateMetrics sk dumps p predict) df start gid strideArg

/-- Modelled from the spec: the repository's configuration-validation
layer is not under `src/` (only the backtest loop is).  Spec §4.2: "a
stride of zero or negative must be rejected by configuration validation
(not enforced by the loop itself)"; §7: "non-positive stride or horizon:
fatal, raised before or at first use, never silently substituted". -/
def validateConfig (p : Params) (strideArg : Option Int) :
    Except String Unit :=
  if p.prediction_length ≤ 0 then
    Except.error ("Configuration error: non-positive prediction horizon")
  else if effectiveStride p strideArg ≤ 0 then
    Except.error ("Configuration error: non-positive stride")
  else Except.ok ()

/-- Modelled from the spec: validation runs before or at first use of the
configured values (§7), i.e. no later than the first `backtest` call;
on a validation error the loop never starts and `predict` is never
invoked. -/
def validatedBacktest (sk : SktimeMetrics) (dumps : String → String)
    (p : Params)
    (predict : List Row → List Row → Except String (List Row × String))
    (df : List Row) (start : Int) (gid : Option String)
    (strideArg : Option Int) : Except String ResDF :=
  match validateConfig p strideArg with
  | Except.error e => Except.error e
  | Except.ok _ => backtest sk dumps p predict df start gid strideArg

/-- A store of pandas frame objects: frame identity is the index, so that
in-place mutation of a caller-visible frame would be observable.  Every
operation `backtest` performs on frames — `df.copy()` and
`sort_values` with its default `inplace=False` — returns a fresh object,
which the store models by appending. -/
abbrev Heap := List (List Row)

/-- The rows of the frame object `i` refers to. -/
def frameAt (h : Heap) (i : Nat) : List Row :=
  h.getD i []

/-- Allocate a fresh frame object holding `rows`. -/
def allocFrame (h : Heap) (rows : List Row) : Heap × Nat :=
  (h ++ [rows], h.length)

/-- `backtest` with the caller's frame passed by object reference:
line 72 first copies the caller's frame (`df.copy()`, a fresh object),
then sorts the copy (`sort_values`, `inplace=False`, again a fresh
object); the loop then reads only the sorted private copy. -/
def backtestOnHeap (p : Params)
    (f : List Row → List Row → Int → Except String MetricsVal)
    (hp : Heap) (dfRef : Nat) (start : Int) (gid : Option String)
    (strideArg : Option Int) : Heap × Except String ResDF :=
  let copied := allocFrame hp (frameAt hp dfRef)
  let sorted := allocFrame copied.1 (sortByDate (frameAt copied.1 copied.2))
  (sorted.1,
    backtestSorted p f (frameAt sorted.1 sorted.2) start gid strideArg)

/-! ### Helper lemmas about the loop embedding -/

/-- The iteration bound of `walkAux` is irrelevant once it is at least
`(e + 2 - hzn - c).toNat`, provided the stride is positive. -/
theorem walkAux_congr (e hzn s : Int) (hs : 0 < s) :
    ∀ (n m : Nat) (c : Int), (e + 2 - hzn - c).toNat ≤ n →
      (e + 2 - hzn - c).toNat ≤ m →
      walkAux e hzn s n c = walkAux e hzn s m c := by
  intro n
  induction n with
  | zero =>
    intro m c hn hm
    have hc : ¬ (c + hzn ≤ e + 1) := by omega
    cases m with
    | zero => rfl
    | succ k => simp [walkAux, hc]
  | succ k ih =>
    intro m c hn hm
    by_cases hc : c + hzn ≤ e + 1
    · cases m with
      | zero => exact absurd hm (by omega)
      | succ l =>
        simp only [walkAux, hc, if_true]
        congr 1
        exact ih l (c + s) (by omega) (by omega)
    · cases m with
      | zero => simp [walkAux, hc]
      | succ l => simp [walkAux, hc]

/-- For a positive stride, `walkCursors` satisfies the literal loop
equation of lines 79/111: emit the cursor while
`curr + horizon ≤ end + one_period`, stepping by the stride. -/
theorem walkCursors_eq (e hzn s c : Int) (hs : 0 < s) :
    walkCursors e hzn s c =
      if c + hzn ≤ e + 1 then c :: walkCursors e hzn s (c + s) else [] := by
  unfold walkCursors
  by_cases hc : c + hzn ≤ e + 1
  · have h1 : (e + 2 - hzn - c).toNat = ((e + 2 - hzn - c).toNat - 1) + 1 := by
      omega
    rw [h1]
    simp only [walkAux, hc, if_true]
    congr 1
    exact walkAux_congr e hzn s hs _ _ (c + s) (by omega) (by omega)
  · cases hn : (e + 2 - hzn - c).toNat with
    | zero => simp [walkAux, hc]
    | succ k => simp [walkAux, hc]

/-- The number of loop iterations, for a positive stride. -/
theorem walkAux_length (e hzn s : Int) (hs : 0 < s) :
    ∀ (n : Nat) (c : Int), (e + 2 - hzn - c).toNat ≤ n →
      (walkAux e hzn s n c).length =
        if c + hzn ≤ e + 1 then (e + 1 - hzn - c).toNat / s.toNat + 1
        else 0 := by
  intro n
  induction n with
  | zero =>
    intro c hn
    have hc : ¬ (c + hzn ≤ e + 1) := by omega
    simp [walkAux, hc]
  | succ k ih =>
    intro c hn
    by_cases hc : c + hzn ≤ e + 1
    · simp only [walkAux, hc, if_true, List.length_cons]
      rw [ih (c + s) (by omega)]
      by_cases hc2 : c + s + hzn ≤ e + 1
      · simp only [hc2, if_true]
        have ha : (e + 1 - hzn - c).toNat =
            (e + 1 - hzn - (c + s)).toNat + s.toNat := by omega
        rw [ha, Nat.add_div_right _ (by omega : 0 < s.toNat)]
      · simp only [hc2, if_false]
        have hlt : (e + 1 - hzn - c).toNat < s.toNat := by omega
        rw [Nat.div_eq_of_lt hlt]
    · simp [walkAux, hc]

/-- Successive cursors differ by exactly the stride. -/
theorem walkAux_chain (e hzn s : Int) :
    ∀ (n : Nat) (c : Int),
      List.Chain' (fun a b => b = a + s) (walkAux e hzn s n c) := by
  intro n
  induction n with
  | zero => intro c; simp [walkAux]
  | succ k ih =>
    intro c
    by_cases hc : c + hzn ≤ e + 1
    · simp only [walkAux, hc, if_true]
      refine List.chain'_cons'.mpr ⟨?_, ih (c + s)⟩
      intro y hy
      cases k with
      | zero => simp [walkAux] at hy
      | succ l =>
        by_cases hc2 : c + s + hzn ≤ e + 1
        · simp only [walkAux, hc2, if_true, List.head?_cons,
            Option.mem_def, Option.some.injEq] at hy
          omega
        · simp [walkAux, hc2] at hy
    · simp [walkAux, hc]

/-- Every emitted cursor satisfies the loop bound. -/
theorem walkAux_mem_bound (e hzn s : Int) :
    ∀ (n : Nat) (c x : Int), x ∈ walkAux e hzn s n c → x + hzn ≤ e + 1 := by
  intro n
  induction n with
  | zero => intro c x hx; simp [walkAux] at hx
  | succ k ih =>
    intro c x hx
    by_cases hc : c + hzn ≤ e + 1
    · simp only [walkAux, hc, if_true, List.mem_cons] at hx
      rcases hx with rfl | hx
      · exact hc
      · exact ih (c + s) x hx
    · simp [walkAux, hc] at hx

/-! ### Helper lemmas about `maxDate` -/

theorem maxDate_eq_none (df : List Row) : maxDate df = none ↔ df = [] := by
  cases df with
  | nil => simp [maxDate]
  | cons r rs =>
    simp only [maxDate]
    cases maxDate rs <;> simp

/-- `maxDate` returns an attained upper bound of the date column. -/
theorem maxDate_spec (df : List Row) :
    ∀ m, maxDate df = some m ↔
      ((∃ r ∈ df, r.date = m) ∧ ∀ r ∈ df, r.date ≤ m) := by
  induction df with
  | nil => intro m; simp [maxDate]
  | cons r rs ih =>
    intro m
    simp only [maxDate]
    cases hrs : maxDate rs with
    | none =>
      have hnil : rs = [] := (maxDate_eq_none rs).mp hrs
      subst hnil
      constructor
      · intro h
        refine ⟨⟨r, by simp, by simpa using h⟩, ?_⟩
        intro x hx
        simp only [List.mem_cons, List.not_mem_nil, or_false] at hx
        subst hx
        simp only [Option.some.injEq] at h
        omega
      · rintro ⟨⟨x, hx, hxm⟩, hb⟩
        simp only [List.mem_cons, List.not_mem_nil, or_false] at hx
        subst hx
        simp [hxm]
    | some m' =>
      obtain ⟨⟨x', hx', hx'm⟩, hb'⟩ := (ih m').mp hrs
      constructor
      · intro h
        simp only [Option.some.injEq] at h
        constructor
        · rcases le_total r.date m' with hle | hle
          · exact ⟨x', by simp [hx'], by omega⟩
          · exact ⟨r, by simp, by omega⟩
        · intro x hx
          rcases List.mem_cons.mp hx with rfl | hx
          · omega
          · have := hb' x hx
            omega
      · rintro ⟨⟨x, hx, hxm⟩, hb⟩
        have h1 : r.date ≤ m := hb r (by simp)
        have h2 : m' ≤ m := by
          have := hb x' (by simp [hx'])
          omega
        have h3 : m ≤ max r.date m' := by
          rcases List.mem_cons.mp hx with rfl | hx
          · omega
          · have := hb' x hx
            omega
        simp only [Option.some.injEq]
        omega

/-- Sorting the private copy does not change the maximum of the date
column (line 73 reads it off the sorted copy). -/
theorem maxDate_sortByDate (df : List Row) :
    maxDate (sortByDate df) = maxDate df := by
  have hperm : (sortByDate df).Perm df := List.perm_insertionSort _ df
  cases h : maxDate df with
  | none =>
    have hnil : df = [] := (maxDate_eq_none df).mp h
    subst hnil
    rfl
  | some m =>
    obtain ⟨⟨r, hr, hrm⟩, hb⟩ := (maxDate_spec df m).mp h
    refine (maxDate_spec (sortByDate df) m).mpr ?_
    refine ⟨⟨r, hperm.mem_iff.mpr hr, hrm⟩, ?_⟩
    intro x hx
    exact hb x (hperm.mem_iff.mp hx)

/-! ### Helper lemmas about the window loop -/

/-- When `calculate_metrics` never raises, the loop succeeds and the
result rows are the concatenation of each window's contribution. -/
theorem runWindows_ok (m : List Row → List Row → Int → MetricsVal)
    (gid : Option String) (df : List Row) (hzn : Int) (cs : List Int) :
    runWindows (fun h a c => Except.ok (m h a c)) gid df hzn cs =
      Except.ok (cs.flatMap (fun c =>
        windowContrib gid (m (histSlice df c) (actualsSlice df c hzn) c))) := by
  induction cs with
  | nil => rfl
  | cons c cs ih => simp [runWindows, ih]

theorem flatMap_singleton_length {α β : Type} (f : α → β) (l : List α) :
    (l.flatMap (fun a => [f a])).length = l.length := by
  induction l with
  | nil => rfl
  | cons a l ih => simp [ih]

/-! ### Helper lemmas about the frame store -/

theorem frameAt_append_lt (h : Heap) (t : List (List Row)) (i : Nat)
    (hi : i < h.length) : frameAt (h ++ t) i = frameAt h i := by
  unfold frameAt
  rw [List.getD_eq_getElem?_getD, List.getD_eq_getElem?_getD,
    List.getElem?_append, if_pos hi]

theorem frameAt_alloc (h : Heap) (rows : List Row) :
    frameAt (h ++ [rows]) h.length = rows := by
  unfold frameAt
  rw [List.getD_eq_getElem?_getD, List.getElem?_append,
    if_neg (by omega)]
  simp

/-- If the loop condition already fails at the initial cursor, no window
is produced — for any stride, as in the source. -/
theorem walkCursors_nil (e hzn s c : Int) (hc : ¬ (c + hzn ≤ e + 1)) :
    walkCursors e hzn s c = [] := by
  unfold walkCursors
  cases (e + 2 - hzn - c).toNat with
  | zero => rfl
  | succ k => simp [walkAux, hc]

/-- When `calculate_metrics` never raises, `backtest` returns the Result
Table whose rows are the windows' contributions, in cursor order. -/
theorem backtestWith_ok (p : Params)
    (m : List Row → List Row → Int → MetricsVal) (df : List Row)
    (start : Int) (gid : Option String) (strideArg : Option Int) :
    backtestWith p (fun h a c => Except.ok (m h a c)) df start gid strideArg =
      Except.ok ⟨resColumns p, (windowCursors p df start strideArg).flatMap
        (fun c => windowContrib gid (m (histSlice (sortByDate df) c)
          (actualsSlice (sortByDate df) c p.prediction_length) c))⟩ := by
  unfold backtestWith backtestSorted windowCursors
  cases hmax : maxDate (sortByDate df) with
  | none => simp [runWindows]
  | some e => simp [runWindows_ok]

/-- An exception in the first window's `calculate_metrics` aborts the
whole run with that exception. -/
theorem backtestWith_first_window_error (p : Params)
    (f : List Row → List Row → Int → Except String MetricsVal)
    (df : List Row) (start : Int) (gid : Option String)
    (strideArg : Option Int) (e : Int) (msg : String)
    (hs : 0 < effectiveStride p strideArg) (hmax : maxDate df = some e)
    (hwin : start + p.prediction_length ≤ e)
    (hf : f (histSlice (sortByDate df) (start + 1))
        (actualsSlice (sortByDate df) (start + 1) p.prediction_length)
        (start + 1) = Except.error msg) :
    backtestWith p f df start gid strideArg = Except.error msg := by
  have hmax2 : maxDate (sortByDate df) = some e := by
    rw [maxDate_sortByDate]; exact hmax
  unfold backtestWith backtestSorted
  simp only [hmax2]
  rw [walkCursors_eq _ _ _ _ hs, if_pos (by omega)]
  simp [runWindows, hf]

/-- One row per window when every window yields a dict. -/
theorem length_flatMap_dict (gid : Option String) (h : Int → MetricRecord)
    (cs : List Int) :
    (cs.flatMap (fun c => windowContrib gid (MetricsVal.dict (h c)))).length
      = cs.length := by
  induction cs with
  | nil => rfl
  | cons c cs ih =>
    have hone : windowContrib gid (MetricsVal.dict (h c)) =
        [⟨gid, (h c).curr_date, (h c).metric_name, (h c).metric_value,
          (h c).forecast, (h c).actual, (h c).model_pickle⟩] := rfl
    rw [List.flatMap_cons, List.length_append, ih, hone,
      List.length_singleton, List.length_cons]
    omega

/-- The number of windows in closed form: `windowCursors` has the length
of the loop walk. -/
theorem windowCursors_length (p : Params) (df : List Row) (start : Int)
    (strideArg : Option Int) (e : Int)
    (hs : 0 < effectiveStride p strideArg) (hmax : maxDate df = some e) :
    (windowCursors p df start strideArg).length =
      if start + p.prediction_length ≤ e then
        (e - start - p.prediction_length).toNat /
          (effectiveStride p strideArg).toNat + 1
      else 0 := by
  have hmax2 : maxDate (sortByDate df) = some e := by
    rw [maxDate_sortByDate]; exact hmax
  unfold windowCursors walkCursors
  simp only [hmax2]
  rw [walkAux_length e p.prediction_length (effectiveStride p strideArg) hs _
    (start + 1) (le_refl _)]
  have hnum : (e + 1 - p.prediction_length - (start + 1)).toNat =
      (e - start - p.prediction_length).toNat := by omega
  have hiff : (start + 1 + p.prediction_length ≤ e + 1) ↔
      (start + p.prediction_length ≤ e) := by omega
  rw [hnum]
  simp only [hiff]

/-! ### Claim theorems -/

/-- C7 counterexample: the frequency code `"m"` does not begin with the
character `M`, yet the resolver yields month-end offsets (the source
uppercases the code first), contradicting "any other frequency code
yields calendar-day offsets". -/
theorem offset_resolver_counterexample :
    ("m").front ≠ 'M' ∧
      offsetResolver ("m") 3 7 =
        (POffset.monthEnd 1, POffset.monthEnd 3, POffset.monthEnd 7) ∧
      POffset.monthEnd 1 ≠ POffset.days 1 := by
  decide

/-- C7 (amended): the Offset Resolver is a pure function of
(frequency code, horizon, stride); a code whose uppercased first
character is `M` yields month-end offsets sized (1, horizon, stride),
any other code yields calendar-day offsets of those counts. -/
theorem offset_resolver_amended (freq : String) (plen stride : Int) :
    offsetResolver freq plen stride =
      if freqCode freq = 'M' then
        (POffset.monthEnd 1, POffset.monthEnd plen, POffset.monthEnd stride)
      else
        (POffset.days 1, POffset.days plen, POffset.days stride) := by
  unfold offsetResolver one_ts_offset prediction_length_offset stride_offset
  by_cases h : freqCode freq = 'M' <;> simp [h]

/-- C3: the actual slice is exactly the rows with date in the half-open
interval `[cursor, cursor + horizon)`; a row dated exactly
`cursor + horizon` is excluded from it and lies in any later window's
history slice once that window's cutoff exceeds `cursor + horizon`; and
no row is in both the history and the actual slice of one window. -/
theorem actual_slice_half_open (df : List Row) (c hzn cNext : Int) (r : Row) :
    (r ∈ actualsSlice df c hzn ↔ r ∈ df ∧ (c ≤ r.date ∧ r.date < c + hzn))
    ∧ (r.date = c + hzn → r ∉ actualsSlice df c hzn)
    ∧ (r.date = c + hzn → r ∈ df → c + hzn < cNext → r ∈ histSlice df cNext)
    ∧ ¬(r ∈ histSlice df c ∧ r ∈ actualsSlice df c hzn) := by
  refine ⟨?_, ?_, ?_, ?_⟩
  · simp [actualsSlice, List.mem_filter, and_assoc]
  · intro hd hmem
    simp [actualsSlice, List.mem_filter] at hmem
    omega
  · intro hd hmem hc
    simp only [histSlice, List.mem_filter, decide_eq_true_eq]
    exact ⟨hmem, by omega⟩
  · rintro ⟨h1, h2⟩
    simp only [histSlice, List.mem_filter, decide_eq_true_eq] at h1
    simp only [actualsSlice, List.mem_filter, Bool.and_eq_true,
      decide_eq_true_eq] at h2
    omega

/-- C3 witness at a concrete input: with cutoff 5 and horizon 3, the row
dated 8 is not in the actual slice but is in the history slice of a next
window cut at 9. -/
theorem actual_slice_half_open_witness :
    (⟨8, 1, none⟩ : Row) ∉ actualsSlice [⟨8, 1, none⟩] 5 3 ∧
      (⟨8, 1, none⟩ : Row) ∈ histSlice [⟨8, 1, none⟩] 9 := by
  have h := actual_slice_half_open [⟨8, 1, none⟩] 5 3 9 ⟨8, 1, none⟩
  exact ⟨h.2.1 (by decide),
    h.2.2.1 (by decide) (by simp) (by decide)⟩

/-- C4: when `start + horizon` exceeds the series' maximum date, the
backtest produces zero windows and returns (normally, for any
`calculate_metrics`, any stride) an empty Result Table that still
carries the fixed seven-column schema. -/
theorem empty_window_schema (p : Params)
    (f : List Row → List Row → Int → Except String MetricsVal)
    (df : List Row) (start : Int) (gid : Option String)
    (strideArg : Option Int) (e : Int)
    (hmax : maxDate df = some e) (hlt : e < start + p.prediction_length) :
    backtestWith p f df start gid strideArg =
        Except.ok ⟨resColumns p, []⟩ ∧ (resColumns p).length = 7 := by
  constructor
  · unfold backtestWith backtestSorted
    rw [maxDate_sortByDate df, hmax]
    simp only [walkCursors_nil e p.prediction_length
      (effectiveStride p strideArg) (start + 1) (by omega), runWindows]
  · rfl

/-- C4 witness: a one-row series ending at date 5, backtest start 5,
horizon 3 — an empty table with the seven columns, no error. -/
theorem empty_window_schema_witness :
    backtestWith ⟨"D", 3, "date", "unique_id", "y", "smape", none⟩
        (fun _ _ _ => Except.ok MetricsVal.other) [⟨5, 2, none⟩] 5 none none =
        Except.ok ⟨resColumns ⟨"D", 3, "date", "unique_id", "y", "smape", none⟩,
          []⟩ ∧
      (resColumns ⟨"D", 3, "date", "unique_id", "y", "smape", none⟩).length
        = 7 :=
  empty_window_schema _ _ _ _ _ _ 5 (by decide) (by decide)

/-- C6: for a positive stride the backtest loop is exactly the guarded
recursion below (it terminates), the cursor strictly increases by the
stride each iteration, every cursor obeys the loop bound fixed by the
series' maximum date, and the number of windows is finite with an
explicit closed form. -/
theorem backtest_loop_terminates (e hzn s c : Int) (hs : 0 < s) :
    walkCursors e hzn s c =
        (if c + hzn ≤ e + 1 then c :: walkCursors e hzn s (c + s) else [])
      ∧ List.Chain' (fun a b => b = a + s) (walkCursors e hzn s c)
      ∧ List.Chain' (fun a b => a < b) (walkCursors e hzn s c)
      ∧ (∀ x ∈ walkCursors e hzn s c, x + hzn ≤ e + 1)
      ∧ (walkCursors e hzn s c).length =
          (if c + hzn ≤ e + 1 then (e + 1 - hzn - c).toNat / s.toNat + 1
           else 0) := by
  refine ⟨walkCursors_eq e hzn s c hs, ?_, ?_, ?_, ?_⟩
  · exact walkAux_chain e hzn s _ c
  · exact List.Chain'.imp (fun a b hab => by omega) (walkAux_chain e hzn s _ c)
  · exact fun x hx => walkAux_mem_bound e hzn s _ c x hx
  · exact walkAux_length e hzn s hs _ c (le_refl _)

/-- C6 witness: the spec's own example — 69 days of history after the
start, horizon 12, stride 7 — walks exactly 9 windows. -/
theorem backtest_loop_terminates_witness :
    (walkCursors 69 12 7 1).length = 9 := by
  have h := (backtest_loop_terminates 69 12 7 1 (by decide)).2.2.2.2
  simpa using h

/-- C1 counterexample: daily series spanning dates 0 through 12,
horizon 12, stride 7.  The loop runs once (its condition is
`cursor + horizon ≤ end + 1`), so `backtest` produces one window and one
per-window evaluation; the claim's count
`floor((end - (start + 1) - horizon) / stride) + 1` has a negative
numerator (`12 - 1 - 12 = -1`), so the claim predicts zero windows. -/
theorem window_count_claim_counterexample :
    (backtestWith ⟨"D", 12, "date", "unique_id", "y", "mae", none⟩
        (fun _ _ c => Except.ok (MetricsVal.dict ⟨c, "mae", 0, [], [], "b"⟩))
        [⟨0, 1, none⟩, ⟨12, 2, none⟩] 0 none none).map
        (fun r => r.rows.length) = Except.ok 1
    ∧ ((12 : Int) - (0 + 1) - 12 < 0) := by
  constructor
  · rfl
  · decide

/-- C1 (amended): for a daily series with maximum date `e` and any
positive stride, the number of windows (and hence of per-window
evaluations) is `floor((e - start - horizon) / stride) + 1` when
`start + horizon ≤ e`, and zero otherwise — the loop bound is
`end + one_period`, so the correct numerator is `e - start - horizon`,
one period more than the claim's `e - (start + 1 day) - horizon`. -/
theorem window_count_amended (p : Params)
    (g : List Row → List Row → Int → MetricRecord) (df : List Row)
    (start : Int) (gid : Option String) (strideArg : Option Int) (e : Int)
    (hs : 0 < effectiveStride p strideArg) (hmax : maxDate df = some e) :
    ∃ rows,
      backtestWith p (fun h a c => Except.ok (MetricsVal.dict (g h a c)))
          df start gid strideArg = Except.ok ⟨resColumns p, rows⟩
      ∧ rows.length =
          (if start + p.prediction_length ≤ e then
            (e - start - p.prediction_length).toNat /
              (effectiveStride p strideArg).toNat + 1
          else 0) := by
  refine ⟨_, backtestWith_ok p (fun h a c => MetricsVal.dict (g h a c))
    df start gid strideArg, ?_⟩
  rw [length_flatMap_dict gid
    (fun c => g (histSlice (sortByDate df) c)
      (actualsSlice (sortByDate df) c p.prediction_length) c)]
  exact windowCursors_length p df start strideArg e hs hmax

/-- C1 witness: the spec's own sizes — a daily series spanning dates 0
through 69, horizon 12, stride 7 — give `floor(57 / 7) + 1 = 9`
windows. -/
theorem window_count_amended_witness :
    (backtestWith ⟨"D", 12, "date", "unique_id", "y", "mae", none⟩
        (fun _ _ c => Except.ok (MetricsVal.dict ⟨c, "mae", 0, [], [], "b"⟩))
        [⟨0, 1, none⟩, ⟨69, 1, none⟩] 0 none none).map
        (fun r => r.rows.length) = Except.ok 9 := by
  obtain ⟨rows, hok, hlen⟩ :=
    window_count_amended ⟨"D", 12, "date", "unique_id", "y", "mae", none⟩
      (fun _ _ c => ⟨c, "mae", 0, [], [], "b"⟩)
      [⟨0, 1, none⟩, ⟨69, 1, none⟩] 0 none none 69 (by decide) (by decide)
  rw [hok]
  have h9 : rows.length = 9 := by
    rw [hlen]
    decide
  simp [Except.map, h9]

/-- C2 counterexample: with the unsupported metric kind `"foo"` and a
series too short for a single window, `backtest` returns normally (an
empty table) and raises no configuration error at all — the unsupported
kind is rejected only when a window is evaluated. -/
theorem unsupported_metric_counterexample :
    ¬ ("foo" ∈ supportedMetrics) ∧
      backtest skZero (fun s => s)
        ⟨"D", 12, "date", "unique_id", "y", "foo", none⟩
        (fun _ _ => Except.ok ([], "fitted"))
        [⟨0, 1, none⟩] 0 none none =
        Except.ok
          ⟨resColumns ⟨"D", 12, "date", "unique_id", "y", "foo", none⟩,
            []⟩ := by
  constructor
  · decide
  · rfl

/-- C2 (amended): when the metric kind is unsupported and at least one
window exists, `backtest` raises `Metric <kind> not supported!` during
the first window's evaluation and never silently substitutes a default —
but `predict` is invoked for that window first: if `predict` itself
raises, its error is the one propagated. -/
theorem unsupported_metric_amended (sk : SktimeMetrics)
    (dumps : String → String) (p : Params)
    (predict : List Row → List Row → Except String (List Row × String))
    (df : List Row) (start : Int) (gid : Option String)
    (strideArg : Option Int) (e : Int)
    (hm : p.metric ∉ supportedMetrics)
    (hs : 0 < effectiveStride p strideArg)
    (hmax : maxDate df = some e)
    (hwin : start + p.prediction_length ≤ e) :
    (∀ out, predict (histSlice (sortByDate df) (start + 1))
        (actualsSlice (sortByDate df) (start + 1) p.prediction_length) =
          Except.ok out →
      backtest sk dumps p predict df start gid strideArg =
        Except.error ("Metric " ++ p.metric ++ " not supported!"))
    ∧ (∀ msg, predict (histSlice (sortByDate df) (start + 1))
        (actualsSlice (sortByDate df) (start + 1) p.prediction_length) =
          Except.error msg →
      backtest sk dumps p predict df start gid strideArg =
        Except.error msg) := by
  simp only [supportedMetrics, List.mem_cons, List.not_mem_nil, or_false,
    not_or] at hm
  obtain ⟨hm1, hm2, hm3, hm4, hm5⟩ := hm
  constructor
  · rintro ⟨pred, fitted⟩ hp
    refine backtestWith_first_window_error p _ df start gid strideArg e _
      hs hmax hwin ?_
    unfold calculateMetrics
    rw [hp]
    simp only [if_neg hm1, if_neg hm2, if_neg hm3, if_neg hm4, if_neg hm5]
  · intro msg hp
    refine backtestWith_first_window_error p _ df start gid strideArg e _
      hs hmax hwin ?_
    unfold calculateMetrics
    rw [hp]

/-- C2 witness: metric `"foo"`, a series spanning 0 through 12, horizon
12 (one window), a succeeding `predict`: the run aborts with the
unsupported-metric error. -/
theorem unsupported_metric_amended_witness :
    backtest skZero (fun s => s)
      ⟨"D", 12, "date", "unique_id", "y", "foo", none⟩
      (fun _ _ => Except.ok ([], "fitted"))
      [⟨0, 1, none⟩, ⟨12, 2, none⟩] 0 none none =
      Except.error ("Metric " ++ "foo" ++ " not supported!") :=
  (unsupported_metric_amended skZero (fun s => s)
    ⟨"D", 12, "date", "unique_id", "y", "foo", none⟩
    (fun _ _ => Except.ok ([], "fitted"))
    [⟨0, 1, none⟩, ⟨12, 2, none⟩] 0 none none 12 (by decide) (by decide)
    (by decide) (by decide)).1 ([], "fitted") rfl

/-- C5: any configuration with a non-positive prediction horizon or a
non-positive effective stride is rejected by the (spec-modelled)
configuration validation with a fatal error, no later than the first
backtest call: the validated run returns that error and the loop is
never entered. -/
theorem config_validation_rejects_nonpositive (sk : SktimeMetrics)
    (dumps : String → String) (p : Params)
    (predict : List Row → List Row → Except String (List Row × String))
    (df : List Row) (start : Int) (gid : Option String)
    (strideArg : Option Int)
    (h : p.prediction_length ≤ 0 ∨ effectiveStride p strideArg ≤ 0) :
    ∃ msg, validateConfig p strideArg = Except.error msg ∧
      validatedBacktest sk dumps p predict df start gid strideArg =
        Except.error msg := by
  by_cases h1 : p.prediction_length ≤ 0
  · refine ⟨"Configuration error: non-positive prediction horizon", ?_, ?_⟩
    · simp [validateConfig, h1]
    · simp [validatedBacktest, validateConfig, h1]
  · have h2 : effectiveStride p strideArg ≤ 0 := h.resolve_left h1
    refine ⟨"Configuration error: non-positive stride", ?_, ?_⟩
    · simp [validateConfig, h1, h2]
    · simp [validatedBacktest, validateConfig, h1, h2]

/-- C5 witness: a configured stride of 0 is rejected before any window
work happens. -/
theorem config_validation_rejects_nonpositive_witness :
    validatedBacktest skZero (fun s => s)
      ⟨"D", 12, "date", "unique_id", "y", "mae", some 0⟩
      (fun _ _ => Except.ok ([], "f")) [⟨0, 1, none⟩] 0 none none =
      Except.error ("Configuration error: non-positive stride") := by
  obtain ⟨msg, hv, hb⟩ := config_validation_rejects_nonpositive skZero
    (fun s => s) ⟨"D", 12, "date", "unique_id", "y", "mae", some 0⟩
    (fun _ _ => Except.ok ([], "f")) [⟨0, 1, none⟩] 0 none none
    (Or.inr (by decide))
  have hcomp : validateConfig
      ⟨"D", 12, "date", "unique_id", "y", "mae", some 0⟩ none =
      Except.error ("Configuration error: non-positive stride") := rfl
  rw [hcomp] at hv
  injection hv with hmsg
  rw [← hmsg] at hb
  exact hb

/-- C8: `backtest` never mutates the caller's frame: in the frame store,
the caller's frame object (and every other pre-existing frame) holds
exactly the same rows in the same order afterwards, and the returned
table is the one computed from a sorted private copy of those rows. -/
theorem backtest_preserves_input_frame (p : Params)
    (f : List Row → List Row → Int → Except String MetricsVal)
    (hp : Heap) (dfRef : Nat) (start : Int) (gid : Option String)
    (strideArg : Option Int) (i : Nat) (hi : i < hp.length) :
    frameAt (backtestOnHeap p f hp dfRef start gid strideArg).1 i =
        frameAt hp i
    ∧ (backtestOnHeap p f hp dfRef start gid strideArg).2 =
        backtestWith p f (frameAt hp dfRef) start gid strideArg := by
  constructor
  · show frameAt ((hp ++ [frameAt hp dfRef]) ++
        [sortByDate (frameAt (hp ++ [frameAt hp dfRef]) hp.length)]) i =
      frameAt hp i
    rw [frameAt_append_lt _ _ i (by simp; omega),
      frameAt_append_lt _ _ i hi]
  · show backtestSorted p f
        (frameAt ((hp ++ [frameAt hp dfRef]) ++
          [sortByDate (frameAt (hp ++ [frameAt hp dfRef]) hp.length)])
          (hp ++ [frameAt hp dfRef]).length)
        start gid strideArg = _
    rw [frameAt_alloc, frameAt_alloc]
    rfl

/-- C8 witness: a store holding one caller frame; after the run the
caller's frame is unchanged and the result is the pure backtest of its
rows. -/
theorem backtest_preserves_input_frame_witness :
    frameAt (backtestOnHeap ⟨"D", 3, "date", "unique_id", "y", "mae", none⟩
        (fun _ _ _ => Except.ok MetricsVal.other)
        [[⟨0, 1, none⟩, ⟨5, 2, none⟩]] 0 0 none none).1 0 =
        [⟨0, 1, none⟩, ⟨5, 2, none⟩]
    ∧ (backtestOnHeap ⟨"D", 3, "date", "unique_id", "y", "mae", none⟩
        (fun _ _ _ => Except.ok MetricsVal.other)
        [[⟨0, 1, none⟩, ⟨5, 2, none⟩]] 0 0 none none).2 =
        backtestWith ⟨"D", 3, "date", "unique_id", "y", "mae", none⟩
          (fun _ _ _ => Except.ok MetricsVal.other)
          [⟨0, 1, none⟩, ⟨5, 2, none⟩] 0 none none := by
  have h := backtest_preserves_input_frame
    ⟨"D", 3, "date", "unique_id", "y", "mae", none⟩
    (fun _ _ _ => Except.ok MetricsVal.other)
    [[⟨0, 1, none⟩, ⟨5, 2, none⟩]] 0 0 none none 0 (by decide)
  exact ⟨h.1.trans rfl, h.2⟩

/-- C9: for any total `calculate_metrics`, the run returns normally with
each window contributing its rows in order, and a window whose metrics
value is neither a dict nor a list contributes no row — it vanishes
silently while the loop continues. -/
theorem non_dict_non_list_metrics_skipped (p : Params)
    (m : List Row → List Row → Int → MetricsVal) (df : List Row)
    (start : Int) (gid : Option String) (strideArg : Option Int)
    (hs : 0 < effectiveStride p strideArg) :
    backtestWith p (fun h a c => Except.ok (m h a c)) df start gid strideArg =
      Except.ok ⟨resColumns p, (windowCursors p df start strideArg).flatMap
        (fun c => windowContrib gid (m (histSlice (sortByDate df) c)
          (actualsSlice (sortByDate df) c p.prediction_length) c))⟩
    ∧ windowContrib gid MetricsVal.other = [] :=
  ⟨backtestWith_ok p m df start gid strideArg, rfl⟩

/-- C9 witness: a two-window run whose metrics value is always `None`
(neither dict nor list) returns an empty table without error. -/
theorem non_dict_non_list_metrics_skipped_witness :
    backtestWith ⟨"D", 12, "date", "unique_id", "y", "mae", none⟩
      (fun _ _ _ => Except.ok MetricsVal.other)
      [⟨0, 1, none⟩, ⟨20, 2, none⟩] 0 none none =
      Except.ok
        ⟨resColumns ⟨"D", 12, "date", "unique_id", "y", "mae", none⟩,
          []⟩ := by
  have h := (non_dict_non_list_metrics_skipped
    ⟨"D", 12, "date", "unique_id", "y", "mae", none⟩
    (fun _ _ _ => MetricsVal.other)
    [⟨0, 1, none⟩, ⟨20, 2, none⟩] 0 none none (by decide)).1
  rw [h]
  rfl

/-- C10: in a run where every window's metrics value is a dict, the
group-id cell of every resulting row is exactly the `group_id` argument
of the `backtest` call, whatever group values the input rows carry (with
the default `None` argument, every cell is `None`). -/
theorem result_group_id_from_argument (p : Params)
    (g : List Row → List Row → Int → MetricRecord) (df : List Row)
    (start : Int) (gid : Option String) (strideArg : Option Int)
    (hs : 0 < effectiveStride p strideArg) (r : ResDF) (row : ResRow)
    (hok : backtestWith p
        (fun h a c => Except.ok (MetricsVal.dict (g h a c)))
        df start gid strideArg = Except.ok r)
    (hrow : row ∈ r.rows) : row.groupId = gid := by
  rw [backtestWith_ok p (fun h a c => MetricsVal.dict (g h a c))
    df start gid strideArg] at hok
  injection hok with hok
  rw [← hok] at hrow
  simp only [List.mem_flatMap, windowContrib, List.mem_singleton] at hrow
  obtain ⟨c, _, rfl⟩ := hrow
  rfl

/-- C10 witness: a one-window run over rows carrying group value
`"other_group"` called with `group_id = "G"`: the produced row's group-id
cell is `"G"`. -/
theorem result_group_id_from_argument_witness :
    (⟨some "G", 1, "mae", 0, [], [], "b"⟩ : ResRow).groupId = some "G" :=
  result_group_id_from_argument
    ⟨"D", 2, "date", "unique_id", "y", "mae", none⟩
    (fun _ _ c => ⟨c, "mae", 0, [], [], "b"⟩)
    [⟨0, 1, some "other_group"⟩, ⟨2, 3, some "other_group"⟩] 0 (some "G")
    none (by decide)
    ⟨resColumns ⟨"D", 2, "date", "unique_id", "y", "mae", none⟩,
      [⟨some "G", 1, "mae", 0, [], [], "b"⟩]⟩
    ⟨some "G", 1, "mae", 0, [], [], "b"⟩ rfl (by decide)

end MMF
